import Mathlib

/-!
Shallow embedding of the query-routing orchestrator
(src/orchestrator/orchestrator_agent.py and src/main.py).

The two external effects — the Gemini classifier call in `route_query` and
the HTTP POST in `process_with_agent` — are modelled as explicit inputs:
the classifier reply as `Except String String` (`.error e` models the
adapter raising an exception with description `e`), and the HTTP call
outcome as `Except String HttpResponse` (`.error e` models `httpx`
raising, e.g. connection refused or timeout; `HttpResponse.body_json`
being `.error e` models `response.json()` raising on an unparseable body).
Functions additionally return the list of HTTP requests they issue, so
that "the Dispatcher is invoked exactly once" is statable.
-/

namespace Orchestrator

/-- The `next_action` values of `AgentState`.  The Python code stores the
strings "ROUTE", "process" and "END"; the graph edge compares against
"process" and everything else flows to END, so the three string values
behave exactly as this enum. -/
inductive NextAction
| ROUTE
| PROCESS
| END
deriving DecidableEq, Repr

/-- A langchain message: `route_query` and `process_with_agent` filter for
`HumanMessage` instances and read `.content`. -/
inductive Message
| human (content : String)
| other (content : String)
deriving DecidableEq, Repr

def Message.isHuman : Message → Bool
| .human _ => true
| .other _ => false

def Message.content : Message → String
| .human c => c
| .other c => c

/-- One value of the agent registry: the per-section fields read by
`read_agent_registry`. -/
structure AgentDetails where
  name : String
  description : String
  endpoint : String
  capabilities : List String
deriving DecidableEq, Repr

instance : Inhabited AgentDetails :=
  ⟨{ name := "", description := "", endpoint := "", capabilities := [] }⟩

/-- The agent registry: a mapping from agent id to details.  Keys are
configparser section names, hence never the empty string. -/
abbrev Registry := List (String × AgentDetails)

/-- Python `agent_id in agent_registry` (dict key membership). -/
def registryContains (reg : Registry) (k : String) : Bool :=
  (reg.lookup k).isSome

/-- The `AgentState` TypedDict. -/
structure AgentState where
  messages : List Message
  current_agent : Option String
  next_action : NextAction
  response : Option String
deriving DecidableEq, Repr

/-- Python `str.strip()`: drop leading and trailing whitespace. -/
def pyStrip (s : String) : String :=
  String.mk (((s.data.dropWhile Char.isWhitespace).reverse.dropWhile Char.isWhitespace).reverse)

def pySplitLinesAux : List Char → List Char → List String
| [], acc => [String.mk acc.reverse]
| c :: cs, acc =>
  if c = '\n' then String.mk acc.reverse :: pySplitLinesAux cs []
  else pySplitLinesAux cs (c :: acc)

/-- Python `s.split("\n")`. -/
def pySplitLines (s : String) : List String :=
  pySplitLinesAux s.data []

/-- Python `s.startswith(pre)`. -/
def pyStartsWith (s pre : String) : Bool :=
  pre.data.isPrefixOf s.data

/-- Python `s[n:]` (drop the first `n` characters). -/
def pyDrop (s : String) (n : Nat) : String :=
  String.mk (s.data.drop n)

/-- The parse loop of `route_query`: scan the reply lines, take the first
line starting with "AGENT_NAME:", and return `line.split(":", 1)[1].strip()`.
Since "AGENT_NAME" holds no colon, the first colon of such a line is the
one ending the prefix, so `split(":", 1)[1]` is the line with its first
11 characters removed. -/
def extractAgentName (response_text : String) : Option String :=
  (pySplitLines response_text).findSome? fun line =>
    if pyStartsWith line "AGENT_NAME:" then
      some (pyStrip (pyDrop line 11))
    else
      none

def noQueryMessage : String := "No query provided."

def clarificationMessage : String :=
  "I couldn\x27t determine which agent would be best suited for your query. Could you please provide more specific information?"

/-- `route_query` from src/orchestrator/orchestrator_agent.py.  `oracle` is
the outcome of `model.generate_content(router_prompt)`: exceptions from the
Gemini adapter are not caught, so an `.error` propagates. -/
def route_query (reg : Registry) (state : AgentState)
    (oracle : Except String String) : Except String AgentState :=
  let human_messages := state.messages.filter Message.isHuman
  if human_messages.isEmpty then
    .ok { state with next_action := .END, response := some noQueryMessage }
  else
    match oracle with
    | .error e => .error e
    | .ok response_text =>
      match extractAgentName response_text with
      | none =>
        .ok { state with next_action := .END, response := some clarificationMessage }
      | some v =>
        if v = "" || !(registryContains reg v) then
          .ok { state with next_action := .END, response := some clarificationMessage }
        else
          .ok { state with current_agent := some v, next_action := .PROCESS }

/-- The `httpx` response object as `process_with_agent` consumes it:
`status_code`, `text`, and the outcome of calling `.json()` (`.error e`
models `response.json()` raising with description `e`). -/
structure HttpResponse where
  status_code : Nat
  text : String
  body_json : Except String (List (String × String))
deriving Repr

/-- The POST request `process_with_agent` issues:
`client.post(endpoint, json=\x7b"query": query\x7d, timeout=10.0)`. -/
structure HttpRequest where
  endpoint : String
  body_query : String
  timeout_seconds : Nat
deriving DecidableEq, Repr

def noValidAgentMessage : String := "No valid agent was selected for this query."

/-- Python `result.get('result', '')` on the decoded JSON object. -/
def jsonGet (obj : List (String × String)) (key dflt : String) : String :=
  (obj.lookup key).getD dflt

/-- `process_with_agent` from src/orchestrator/orchestrator_agent.py.
`callResult` is the outcome of the `client.post` call together with body
decoding; returns the updated state and the list of requests issued. -/
def process_with_agent (reg : Registry) (state : AgentState)
    (callResult : Except String HttpResponse) : AgentState × List HttpRequest :=
  match state.current_agent with
  | none =>
    ({ state with next_action := .END, response := some noValidAgentMessage }, [])
  | some agent_id =>
    if agent_id = "" || !(registryContains reg agent_id) then
      ({ state with next_action := .END, response := some noValidAgentMessage }, [])
    else
      let agent_details := (List.lookup agent_id reg).getD default
      let human_messages := state.messages.filter Message.isHuman
      match human_messages.getLast? with
      | none =>
        ({ state with next_action := .END, response := some noQueryMessage }, [])
      | some lastMsg =>
        let req : HttpRequest :=
          { endpoint := agent_details.endpoint
            body_query := lastMsg.content
            timeout_seconds := 10 }
        match callResult with
        | .error e =>
          let msg := "Failed to communicate with " ++ agent_details.name ++ ": " ++ e
          ({ state with next_action := .END, response := some msg }, [req])
        | .ok resp =>
          if resp.status_code = 200 then
            match resp.body_json with
            | .ok result =>
              ({ state with next_action := .END, response := some (jsonGet result "result" "") }, [req])
            | .error e =>
              let msg := "Failed to communicate with " ++ agent_details.name ++ ": " ++ e
              ({ state with next_action := .END, response := some msg }, [req])
          else
            let msg := "Error from " ++ agent_details.name ++ ": " ++ resp.text
            ({ state with next_action := .END, response := some msg }, [req])

/-- The three outcomes of §3's `DispatchResult`, as the branch structure of
`process_with_agent` realises them: the `except` clause is the transport
path, the non-200 branch the agent-error path, and the decoded-200 branch
the success path. -/
inductive Outcome
| SUCCESS
| AGENT_ERROR
| TRANSPORT_ERROR
deriving DecidableEq, Repr

/-- Which branch of `process_with_agent` a given call outcome selects.
A raised `response.json()` is caught by the same `except Exception` as
transport failures, so a 200 status with an undecodable body takes the
transport path. -/
def dispatchOutcome (callResult : Except String HttpResponse) : Outcome :=
  match callResult with
  | .error _ => .TRANSPORT_ERROR
  | .ok resp =>
    if resp.status_code = 200 then
      match resp.body_json with
      | .ok _ => .SUCCESS
      | .error _ => .TRANSPORT_ERROR
    else
      .AGENT_ERROR

/-- `build_orchestrator_graph` and `orchestrator_graph.ainvoke`: run the
"route" node, then follow the conditional edge — "process" exactly when
`next_action` is the process value, else END; the "process" node has an
unconditional edge to END.  Also returns the requests issued and the
names of the nodes executed. -/
def runOrchestratorGraph (reg : Registry) (oracle : Except String String)
    (callResult : Except String HttpResponse) (s0 : AgentState) :
    Except String (AgentState × List HttpRequest × List String) :=
  match route_query reg s0 oracle with
  | .error e => .error e
  | .ok s1 =>
    match s1.next_action with
    | .PROCESS =>
      match process_with_agent reg s1 callResult with
      | (s2, reqs) => .ok (s2, reqs, ["route", "process"])
    | _ => .ok (s1, [], ["route"])

def fallbackMessage : String := "No response generated by the orchestrator."

/-- The initial state built by `run_orchestrator`. -/
def initialState (query : String) : AgentState :=
  { messages := [Message.human query]
    current_agent := none
    next_action := .ROUTE
    response := none }

/-- `run_orchestrator` from src/orchestrator/orchestrator_agent.py: build
the initial state, run the graph, and return `final_state.get("response")`
or the fallback string when it is unset (paired here with the issued
requests). -/
def run_orchestrator (reg : Registry) (oracle : Except String String)
    (callResult : Except String HttpResponse) (query : String) :
    Except String (String × List HttpRequest) :=
  match runOrchestratorGraph reg oracle callResult (initialState query) with
  | .error e => .error e
  | .ok (fs, reqs, _) => .ok (fs.response.getD fallbackMessage, reqs)

/-- The result of the FastAPI `/query` endpoint in src/main.py: either a
JSON `QueryResponse` or an `HTTPException` with a status code and detail. -/
inductive ApiResult
| success (response : String)
| httpError (status_code : Nat) (detail : String)
deriving DecidableEq, Repr

/-- `process_query` from src/main.py: call `run_orchestrator` and wrap any
exception into an HTTP 500 with the formatted detail. -/
def process_query (reg : Registry) (oracle : Except String String)
    (callResult : Except String HttpResponse) (query : String) : ApiResult :=
  match run_orchestrator reg oracle callResult query with
  | .ok out => .success out.1
  | .error e => .httpError 500 ("Error processing query: " ++ e)

/-- `s` has `sub` as a substring. -/
def containsSubstring (s sub : String) : Prop :=
  ∃ pre post, s = pre ++ sub ++ post

theorem strAppendAssoc (a b c : String) : a ++ b ++ c = a ++ (b ++ c) := by
  apply String.ext
  simp

theorem mem_of_lookup {l : Registry} {k : String} {v : AgentDetails}
    (h : List.lookup k l = some v) : (k, v) ∈ l := by
  induction l with
  | nil => simp [List.lookup] at h
  | cons p t ih =>
    rcases p with ⟨a, b⟩
    by_cases hk : k = a
    · subst hk
      simp [List.lookup] at h
      simp [h]
    · have hb : (k == a) = false := by simp [hk]
      rw [List.lookup, hb] at h
      exact List.mem_cons_of_mem _ (ih h)

theorem findSome_if_of_find (l : List String) (p : String → Bool) (g : String → String)
    (x : String) (h : l.find? p = some x) :
    (l.findSome? fun a => if p a then some (g a) else none) = some (g x) := by
  induction l with
  | nil => simp [List.find?] at h
  | cons a t ih =>
    by_cases hp : p a
    · rw [List.find?_cons_of_pos _ hp] at h
      cases h
      rw [List.findSome?_cons, if_pos hp]
    · rw [List.find?_cons_of_neg _ hp] at h
      rw [List.findSome?_cons, if_neg hp]
      exact ih h

theorem findSome_if_of_find_none (l : List String) (p : String → Bool) (g : String → String)
    (h : l.find? p = none) :
    (l.findSome? fun a => if p a then some (g a) else none) = none := by
  induction l with
  | nil => simp [List.findSome?]
  | cons a t ih =>
    by_cases hp : p a
    · rw [List.find?_cons_of_pos _ hp] at h
      cases h
    · rw [List.find?_cons_of_neg _ hp] at h
      rw [List.findSome?_cons, if_neg hp]
      exact ih h

/-- The Router's parse result on a reply whose line list has a first line
starting with "AGENT_NAME:": that line's value, trimmed. -/
theorem extract_of_first_line (r line : String)
    (hfind : (pySplitLines r).find? (fun l => pyStartsWith l "AGENT_NAME:") = some line) :
    extractAgentName r = some (pyStrip (pyDrop line 11)) := by
  unfold extractAgentName
  exact findSome_if_of_find _ _ _ _ hfind

/-- The Router's parse result on a reply with no "AGENT_NAME:" line. -/
theorem extract_of_no_line (r : String)
    (hfind : (pySplitLines r).find? (fun l => pyStartsWith l "AGENT_NAME:") = none) :
    extractAgentName r = none := by
  unfold extractAgentName
  exact findSome_if_of_find_none _ _ _ hfind

/-- The state `route_query` produces on a validated classifier reply. -/
def routedState (q id : String) : AgentState :=
  { initialState q with current_agent := some id, next_action := .PROCESS }

theorem route_query_valid (reg : Registry) (r q id : String) (d : AgentDetails)
    (hreg : ∀ p ∈ reg, p.1 ≠ "")
    (hext : extractAgentName r = some id)
    (hlook : List.lookup id reg = some d) :
    route_query reg (initialState q) (.ok r) = .ok (routedState q id) := by
  have hne : id ≠ "" := hreg (id, d) (mem_of_lookup hlook)
  simp [route_query, initialState, routedState, hext, registryContains, hlook,
    Message.isHuman, hne]

theorem route_query_total (reg : Registry) (r q : String) :
    ∃ s1, route_query reg (initialState q) (.ok r) = .ok s1 := by
  simp only [route_query, initialState]
  simp [Message.isHuman]
  cases extractAgentName r with
  | none => exact ⟨_, rfl⟩
  | some v =>
    by_cases h : v = "" ∨ registryContains reg v = false
    · refine ⟨{ messages := [Message.human q], current_agent := none,
                next_action := .END, response := some clarificationMessage }, ?_⟩
      simp [h]
    · refine ⟨{ messages := [Message.human q], current_agent := some v,
                next_action := .PROCESS, response := none }, ?_⟩
      simp [h]

theorem route_query_next {reg : Registry} {s s1 : AgentState} {o : Except String String}
    (h : route_query reg s o = .ok s1) :
    s1.next_action = .PROCESS ∨ s1.next_action = .END := by
  simp only [route_query] at h
  split at h
  · cases h; simp
  · split at h
    · cases h
    · split at h
      · cases h; simp
      · split at h
        · cases h; simp
        · cases h; simp

theorem process_with_agent_ends (reg : Registry) (s : AgentState)
    (cr : Except String HttpResponse) :
    ((process_with_agent reg s cr).1).next_action = .END := by
  simp only [process_with_agent]
  split
  · simp
  · split
    · simp
    · split
      · simp
      · split
        · simp
        · split
          · split
            · simp
            · simp
          · simp

theorem process_routed (reg : Registry) (q id : String) (d : AgentDetails)
    (cr : Except String HttpResponse)
    (hne : id ≠ "")
    (hlook : List.lookup id reg = some d) :
    ∃ msg, process_with_agent reg (routedState q id) cr =
      ({ routedState q id with next_action := .END, response := some msg },
       [{ endpoint := d.endpoint, body_query := q, timeout_seconds := 10 }]) := by
  cases cr with
  | error e =>
    refine ⟨"Failed to communicate with " ++ d.name ++ ": " ++ e, ?_⟩
    simp [process_with_agent, routedState, initialState, hne, registryContains, hlook,
      Message.isHuman, Message.content]
  | ok resp =>
    by_cases h200 : resp.status_code = 200
    · cases hj : resp.body_json with
      | ok result =>
        refine ⟨jsonGet result "result" "", ?_⟩
        simp [process_with_agent, routedState, initialState, hne, registryContains, hlook,
          Message.isHuman, Message.content, h200, hj]
      | error e =>
        refine ⟨"Failed to communicate with " ++ d.name ++ ": " ++ e, ?_⟩
        simp [process_with_agent, routedState, initialState, hne, registryContains, hlook,
          Message.isHuman, Message.content, h200, hj]
    · refine ⟨"Error from " ++ d.name ++ ": " ++ resp.text, ?_⟩
      simp [process_with_agent, routedState, initialState, hne, registryContains, hlook,
        Message.isHuman, Message.content, h200]

/-- C1: for every query, when the classifier reply is delivered the
orchestrator terminates with a string: the graph run succeeds, and
`run_orchestrator` returns the final state's response with the fixed
fallback string substituted when that field is unset; when the classifier
adapter raises, that exception alone propagates out. -/
theorem run_orchestrator_returns_string (reg : Registry) (r q : String)
    (cr : Except String HttpResponse) :
    (∃ fs reqs ns,
      runOrchestratorGraph reg (.ok r) cr (initialState q) = .ok (fs, reqs, ns) ∧
      run_orchestrator reg (.ok r) cr q = .ok (fs.response.getD fallbackMessage, reqs)) ∧
    (∀ e, run_orchestrator reg (.error e) cr q = .error e) := by
  constructor
  · obtain ⟨s1, hs1⟩ := route_query_total reg r q
    simp only [runOrchestratorGraph, run_orchestrator, hs1]
    cases hna : s1.next_action <;> simp
  · intro e
    simp [run_orchestrator, runOrchestratorGraph, route_query, initialState, Message.isHuman]

/-- C2: when the classifier reply has a line beginning `AGENT_NAME:`, the
Router extracts the first such line's value trimmed of surrounding
whitespace; when that value is a valid registry key it sets
`current_agent` to it with `next_action = PROCESS`, and the Dispatcher
issues exactly one request, against that id's registered endpoint. -/
theorem valid_reply_dispatches_once (reg : Registry) (r q line id : String) (d : AgentDetails)
    (cr : Except String HttpResponse)
    (hreg : ∀ p ∈ reg, p.1 ≠ "")
    (hfind : (pySplitLines r).find? (fun l => pyStartsWith l "AGENT_NAME:") = some line)
    (hid : id = pyStrip (pyDrop line 11))
    (hlook : List.lookup id reg = some d) :
    extractAgentName r = some id ∧
    ∃ s1, route_query reg (initialState q) (.ok r) = .ok s1 ∧
      s1.current_agent = some id ∧ s1.next_action = .PROCESS ∧
      ∃ resp, run_orchestrator reg (.ok r) cr q =
        .ok (resp, [{ endpoint := d.endpoint, body_query := q, timeout_seconds := 10 }]) := by
  have hext : extractAgentName r = some id := by
    rw [hid]
    exact extract_of_first_line r line hfind
  refine ⟨hext, ?_⟩
  have hne : id ≠ "" := hreg (id, d) (mem_of_lookup hlook)
  have hroute := route_query_valid reg r q id d hreg hext hlook
  refine ⟨routedState q id, hroute, rfl, rfl, ?_⟩
  obtain ⟨msg, hproc⟩ := process_routed reg q id d cr hne hlook
  refine ⟨msg, ?_⟩
  simp only [routedState, initialState] at hproc hroute
  simp [run_orchestrator, runOrchestratorGraph, initialState, hroute, hproc]

/-- C3: when the classifier reply has no `AGENT_NAME:` line, or the
extracted id is absent from the registry, the Router ends the workflow
with the fixed clarification message and the Dispatcher is never
invoked: the graph executes only the route node and issues no request. -/
theorem invalid_reply_clarifies (reg : Registry) (r q : String)
    (cr : Except String HttpResponse)
    (h : (pySplitLines r).find? (fun l => pyStartsWith l "AGENT_NAME:") = none ∨
         ∃ v, extractAgentName r = some v ∧ registryContains reg v = false) :
    ∃ s1, route_query reg (initialState q) (.ok r) = .ok s1 ∧
      s1.next_action = .END ∧ s1.response = some clarificationMessage ∧
      runOrchestratorGraph reg (.ok r) cr (initialState q) = .ok (s1, [], ["route"]) ∧
      run_orchestrator reg (.ok r) cr q = .ok (clarificationMessage, []) := by
  have hroute : route_query reg (initialState q) (.ok r) =
      .ok { initialState q with next_action := .END, response := some clarificationMessage } := by
    rcases h with h | ⟨v, hv, hc⟩
    · simp [route_query, initialState, Message.isHuman, extract_of_no_line r h]
    · simp [route_query, initialState, Message.isHuman, hv, hc]
  refine ⟨_, hroute, rfl, rfl, ?_, ?_⟩
  · simp [runOrchestratorGraph, hroute]
  · simp [run_orchestrator, runOrchestratorGraph, hroute]

theorem run_of_routed (reg : Registry) (r q id : String)
    (cr : Except String HttpResponse) (s2 : AgentState) (reqs : List HttpRequest)
    (hroute : route_query reg (initialState q) (.ok r) = .ok (routedState q id))
    (hproc : process_with_agent reg (routedState q id) cr = (s2, reqs)) :
    run_orchestrator reg (.ok r) cr q = .ok (s2.response.getD fallbackMessage, reqs) := by
  simp only [routedState, initialState] at hproc hroute
  simp [run_orchestrator, runOrchestratorGraph, initialState, hroute, hproc]

/-- C4: on a routed query, an HTTP 200 whose JSON body holds a `result`
field selects the success branch, and the final response is (hence
contains) that field's text. -/
theorem success_response_contains_result (reg : Registry) (r q id x : String)
    (d : AgentDetails) (resp : HttpResponse) (obj : List (String × String))
    (hreg : ∀ p ∈ reg, p.1 ≠ "")
    (hext : extractAgentName r = some id)
    (hlook : List.lookup id reg = some d)
    (h200 : resp.status_code = 200)
    (hjson : resp.body_json = .ok obj)
    (hres : List.lookup "result" obj = some x) :
    dispatchOutcome (.ok resp) = .SUCCESS ∧
    ∃ out, run_orchestrator reg (.ok r) (.ok resp) q =
      .ok (out, [{ endpoint := d.endpoint, body_query := q, timeout_seconds := 10 }]) ∧
      out = x ∧ containsSubstring out x := by
  have hne : id ≠ "" := hreg (id, d) (mem_of_lookup hlook)
  have hroute := route_query_valid reg r q id d hreg hext hlook
  have hproc : process_with_agent reg (routedState q id) (.ok resp) =
      ({ routedState q id with next_action := .END, response := some x },
       [{ endpoint := d.endpoint, body_query := q, timeout_seconds := 10 }]) := by
    simp [process_with_agent, routedState, initialState, hne, registryContains, hlook,
      Message.isHuman, Message.content, h200, hjson, jsonGet, hres]
  have hrun := run_of_routed reg r q id (.ok resp) _ _ hroute hproc
  refine ⟨by simp [dispatchOutcome, h200, hjson], x, ?_, rfl, "", "", ?_⟩
  · simpa using hrun
  · rw [String.empty_append, String.append_empty]

/-- C5: on a routed query, a non-200 HTTP status selects the agent-error
branch: no exception escapes, and the final response is the formatted
message that names the agent and includes the raw response body. -/
theorem non200_is_agent_error (reg : Registry) (r q id : String)
    (d : AgentDetails) (resp : HttpResponse)
    (hreg : ∀ p ∈ reg, p.1 ≠ "")
    (hext : extractAgentName r = some id)
    (hlook : List.lookup id reg = some d)
    (hstat : resp.status_code ≠ 200) :
    dispatchOutcome (.ok resp) = .AGENT_ERROR ∧
    run_orchestrator reg (.ok r) (.ok resp) q =
      .ok ("Error from " ++ d.name ++ ": " ++ resp.text,
           [{ endpoint := d.endpoint, body_query := q, timeout_seconds := 10 }]) ∧
    containsSubstring ("Error from " ++ d.name ++ ": " ++ resp.text) d.name ∧
    containsSubstring ("Error from " ++ d.name ++ ": " ++ resp.text) resp.text := by
  have hne : id ≠ "" := hreg (id, d) (mem_of_lookup hlook)
  have hroute := route_query_valid reg r q id d hreg hext hlook
  have hproc : process_with_agent reg (routedState q id) (.ok resp) =
      ({ routedState q id with next_action := .END, response := some ("Error from " ++ d.name ++ ": " ++ resp.text) },
       [{ endpoint := d.endpoint, body_query := q, timeout_seconds := 10 }]) := by
    simp [process_with_agent, routedState, initialState, hne, registryContains, hlook,
      Message.isHuman, Message.content, hstat]
  have hrun := run_of_routed reg r q id (.ok resp) _ _ hroute hproc
  refine ⟨by simp [dispatchOutcome, hstat], by simpa using hrun, ?_, ?_⟩
  · exact ⟨"Error from ", ": " ++ resp.text, (strAppendAssoc _ _ _)⟩
  · exact ⟨"Error from " ++ d.name ++ ": ", "", (String.append_empty _).symm⟩

/-- C6: on a routed query, a transport-level failure of the HTTP call
selects the exception branch: the orchestrator does not crash, the final
response is the formatted message naming the agent and including the
exception's description, and the issued request carries the fixed
10-second timeout. -/
theorem transport_failure_recovered (reg : Registry) (r q id e : String)
    (d : AgentDetails)
    (hreg : ∀ p ∈ reg, p.1 ≠ "")
    (hext : extractAgentName r = some id)
    (hlook : List.lookup id reg = some d) :
    dispatchOutcome (.error e) = .TRANSPORT_ERROR ∧
    run_orchestrator reg (.ok r) (.error e) q =
      .ok ("Failed to communicate with " ++ d.name ++ ": " ++ e,
           [{ endpoint := d.endpoint, body_query := q, timeout_seconds := 10 }]) ∧
    (HttpRequest.mk d.endpoint q 10).timeout_seconds = 10 ∧
    containsSubstring ("Failed to communicate with " ++ d.name ++ ": " ++ e) d.name ∧
    containsSubstring ("Failed to communicate with " ++ d.name ++ ": " ++ e) e := by
  have hne : id ≠ "" := hreg (id, d) (mem_of_lookup hlook)
  have hroute := route_query_valid reg r q id d hreg hext hlook
  have hproc : process_with_agent reg (routedState q id) (.error e) =
      ({ routedState q id with next_action := .END, response := some ("Failed to communicate with " ++ d.name ++ ": " ++ e) },
       [{ endpoint := d.endpoint, body_query := q, timeout_seconds := 10 }]) := by
    simp [process_with_agent, routedState, initialState, hne, registryContains, hlook,
      Message.isHuman, Message.content]
  have hrun := run_of_routed reg r q id (.error e) _ _ hroute hproc
  refine ⟨rfl, by simpa using hrun, rfl, ?_, ?_⟩
  · exact ⟨"Failed to communicate with ", ": " ++ e, (strAppendAssoc _ _ _)⟩
  · exact ⟨"Failed to communicate with " ++ d.name ++ ": ", "", (String.append_empty _).symm⟩

/-- A registry with one worker, used to exercise concrete runs. -/
def cxRegistry : Registry :=
  [("research_agent",
    { name := "Research Agent", description := "Handles research queries",
      endpoint := "http://localhost:8001/query", capabilities := ["research"] })]

/-- A 200 response whose body `response.json()` cannot decode. -/
def cxMalformed : HttpResponse :=
  { status_code := 200, text := "not json",
    body_json := .error "Expecting value: line 1 column 1 (char 0)" }

/-- C7 counterexample: a 200 response with an undecodable body is NOT
treated as the agent-error outcome: `response.json()` raises inside the
`try`, the generic `except` catches it, and the final response is the
transport-failure message, not the agent-error message with the raw
body. -/
theorem malformed_body_not_agent_error :
    dispatchOutcome (.ok cxMalformed) ≠ Outcome.AGENT_ERROR ∧
    run_orchestrator cxRegistry (.ok "AGENT_NAME: research_agent") (.ok cxMalformed) "find x" =
      .ok ("Failed to communicate with Research Agent: Expecting value: line 1 column 1 (char 0)",
           [{ endpoint := "http://localhost:8001/query", body_query := "find x",
              timeout_seconds := 10 }]) ∧
    ("Failed to communicate with Research Agent: Expecting value: line 1 column 1 (char 0)" : String) ≠
      "Error from Research Agent: not json" :=
  ⟨by decide, by rfl, by decide⟩

/-- C7 amended: on a routed query, a 200 status whose body fails JSON
decoding takes the transport path: the outcome is TRANSPORT_ERROR and the
final response is the transport-failure message naming the agent with the
decode exception's description. -/
theorem malformed_body_transport_path (reg : Registry) (r q id e : String)
    (d : AgentDetails) (resp : HttpResponse)
    (hreg : ∀ p ∈ reg, p.1 ≠ "")
    (hext : extractAgentName r = some id)
    (hlook : List.lookup id reg = some d)
    (h200 : resp.status_code = 200)
    (hjson : resp.body_json = .error e) :
    dispatchOutcome (.ok resp) = .TRANSPORT_ERROR ∧
    run_orchestrator reg (.ok r) (.ok resp) q =
      .ok ("Failed to communicate with " ++ d.name ++ ": " ++ e,
           [{ endpoint := d.endpoint, body_query := q, timeout_seconds := 10 }]) := by
  have hne : id ≠ "" := hreg (id, d) (mem_of_lookup hlook)
  have hroute := route_query_valid reg r q id d hreg hext hlook
  have hproc : process_with_agent reg (routedState q id) (.ok resp) =
      ({ routedState q id with next_action := .END, response := some ("Failed to communicate with " ++ d.name ++ ": " ++ e) },
       [{ endpoint := d.endpoint, body_query := q, timeout_seconds := 10 }]) := by
    simp [process_with_agent, routedState, initialState, hne, registryContains, hlook,
      Message.isHuman, Message.content, h200, hjson]
  have hrun := run_of_routed reg r q id (.ok resp) _ _ hroute hproc
  exact ⟨by simp [dispatchOutcome, h200, hjson], by simpa using hrun⟩

/-- C8: when the classifier adapter raises, `route_query` does not catch
the exception: it propagates through the graph and `run_orchestrator`,
and the FastAPI endpoint reports it as HTTP 500 — never as an ordinary
successful response. -/
theorem oracle_failure_propagates (reg : Registry) (q e : String)
    (cr : Except String HttpResponse) :
    route_query reg (initialState q) (.error e) = .error e ∧
    run_orchestrator reg (.error e) cr q = .error e ∧
    process_query reg (.error e) cr q = .httpError 500 ("Error processing query: " ++ e) ∧
    (∀ s, process_query reg (.error e) cr q ≠ ApiResult.success s) := by
  refine ⟨?_, ?_, ?_, ?_⟩ <;>
    simp [route_query, initialState, Message.isHuman, run_orchestrator,
      runOrchestratorGraph, process_query]

/-- C9: `next_action` is monotonic per query: the Router never leaves the
state at ROUTE, every return path of the Dispatcher sets END, and a graph
run executes the route node once and the process node at most once,
ending in a state with `next_action = END`. -/
theorem workflow_monotonic (reg : Registry) (s s1 fs : AgentState) (r q : String)
    (cr : Except String HttpResponse) (reqs : List HttpRequest) (ns : List String)
    (h1 : route_query reg s (.ok r) = .ok s1)
    (h2 : runOrchestratorGraph reg (.ok r) cr (initialState q) = .ok (fs, reqs, ns)) :
    s1.next_action ≠ .ROUTE ∧
    (∀ s2 cr2, ((process_with_agent reg s2 cr2).1).next_action = .END) ∧
    (ns = ["route"] ∨ ns = ["route", "process"]) ∧
    fs.next_action = .END := by
  refine ⟨?_, fun s2 cr2 => process_with_agent_ends reg s2 cr2, ?_⟩
  · rcases route_query_next h1 with h | h <;> simp [h]
  · simp only [runOrchestratorGraph] at h2
    split at h2
    · cases h2
    · rename_i s1' heq
      split at h2
      · simp only [Except.ok.injEq, Prod.mk.injEq] at h2
        refine ⟨Or.inr h2.2.2.symm, ?_⟩
        rw [← h2.1]
        exact process_with_agent_ends reg s1' cr
      · rename_i x hx
        simp only [Except.ok.injEq, Prod.mk.injEq] at h2
        refine ⟨Or.inl h2.2.2.symm, ?_⟩
        rw [← h2.1]
        rcases route_query_next heq with h | h
        · exact (hx h).elim
        · exact h

/-- C10: a 200 response whose JSON body lacks a `result` field is still
the success branch: `process_with_agent` sets the response to the empty
string (no error message) and `next_action = END`. -/
theorem missing_result_field_is_success (reg : Registry) (s : AgentState) (id : String)
    (d : AgentDetails) (m : Message) (resp : HttpResponse) (obj : List (String × String))
    (hagent : s.current_agent = some id) (hne : id ≠ "")
    (hlook : List.lookup id reg = some d)
    (hlast : (s.messages.filter Message.isHuman).getLast? = some m)
    (h200 : resp.status_code = 200)
    (hjson : resp.body_json = .ok obj)
    (hres : List.lookup "result" obj = none) :
    dispatchOutcome (.ok resp) = .SUCCESS ∧
    process_with_agent reg s (.ok resp) =
      ({ s with next_action := .END, response := some "" },
       [{ endpoint := d.endpoint, body_query := m.content, timeout_seconds := 10 }]) := by
  constructor
  · simp [dispatchOutcome, h200, hjson]
  · simp [process_with_agent, hagent, hne, registryContains, hlook, hlast, h200, hjson,
      jsonGet, hres]

/-- A two-worker registry mirroring the repository's deployment: the
research agent on port 8001 and the content writer on port 8002. -/
def wRegistry : Registry :=
  [("research_agent",
    { name := "Research Agent", description := "Finds and summarizes information",
      endpoint := "http://localhost:8001/query", capabilities := ["research", "fact_checking"] }),
   ("content_writer",
    { name := "Content Writing Agent", description := "Writes and edits text",
      endpoint := "http://localhost:8002/query", capabilities := ["writing", "editing"] })]

/-- The research agent's registry entry. -/
def wDetails : AgentDetails :=
  { name := "Research Agent", description := "Finds and summarizes information",
    endpoint := "http://localhost:8001/query", capabilities := ["research", "fact_checking"] }

/-- A classifier reply naming the research agent. -/
def wReply : String := "AGENT_NAME: research_agent\nREASON: research query"

/-- Witness for C1 at a concrete registry, reply and call outcome. -/
theorem run_orchestrator_returns_string_witness :
    (∃ fs reqs ns,
      runOrchestratorGraph wRegistry (.ok wReply) (.error "refused") (initialState "find facts") = .ok (fs, reqs, ns) ∧
      run_orchestrator wRegistry (.ok wReply) (.error "refused") "find facts" = .ok (fs.response.getD fallbackMessage, reqs)) ∧
    (∀ e, run_orchestrator wRegistry (.error e) (.error "refused") "find facts" = .error e) :=
  run_orchestrator_returns_string wRegistry wReply "find facts" (.error "refused")

/-- Witness for C2 at a concrete registry, reply and call outcome. -/
theorem valid_reply_dispatches_once_witness :
    extractAgentName wReply = some "research_agent" ∧
    ∃ s1, route_query wRegistry (initialState "find facts") (.ok wReply) = .ok s1 ∧
      s1.current_agent = some "research_agent" ∧ s1.next_action = .PROCESS ∧
      ∃ resp, run_orchestrator wRegistry (.ok wReply)
          (.ok { status_code := 200, text := "ok", body_json := .ok [("result", "done")] })
          "find facts" =
        .ok (resp, [{ endpoint := wDetails.endpoint, body_query := "find facts", timeout_seconds := 10 }]) :=
  valid_reply_dispatches_once wRegistry wReply "find facts" "AGENT_NAME: research_agent"
    "research_agent" wDetails
    (.ok { status_code := 200, text := "ok", body_json := .ok [("result", "done")] })
    (by decide) (by decide) (by decide) (by decide)

/-- Witness for C3 at a concrete registry and unusable reply. -/
theorem invalid_reply_clarifies_witness :
    ∃ s1, route_query wRegistry (initialState "hello") (.ok "I am not sure.") = .ok s1 ∧
      s1.next_action = .END ∧ s1.response = some clarificationMessage ∧
      runOrchestratorGraph wRegistry (.ok "I am not sure.") (.error "unused") (initialState "hello") =
        .ok (s1, [], ["route"]) ∧
      run_orchestrator wRegistry (.ok "I am not sure.") (.error "unused") "hello" =
        .ok (clarificationMessage, []) :=
  invalid_reply_clarifies wRegistry "I am not sure." "hello" (.error "unused")
    (Or.inl (by decide))

/-- Witness for C4 at a concrete 200 response holding a result field. -/
theorem success_response_contains_result_witness :
    dispatchOutcome (.ok { status_code := 200, text := "ok", body_json := .ok [("result", "Lean is a proof assistant."), ("confidence", "0.9")] }) = Outcome.SUCCESS ∧
    ∃ out, run_orchestrator wRegistry (.ok wReply)
        (.ok { status_code := 200, text := "ok", body_json := .ok [("result", "Lean is a proof assistant."), ("confidence", "0.9")] })
        "what is lean" =
      .ok (out, [{ endpoint := wDetails.endpoint, body_query := "what is lean", timeout_seconds := 10 }]) ∧
      out = "Lean is a proof assistant." ∧ containsSubstring out "Lean is a proof assistant." :=
  success_response_contains_result wRegistry wReply "what is lean" "research_agent"
    "Lean is a proof assistant." wDetails
    { status_code := 200, text := "ok", body_json := .ok [("result", "Lean is a proof assistant."), ("confidence", "0.9")] }
    [("result", "Lean is a proof assistant."), ("confidence", "0.9")]
    (by decide) (by decide) (by decide) (by rfl) (by rfl) (by rfl)

/-- Witness for C5 at a concrete 500 response. -/
theorem non200_is_agent_error_witness :
    dispatchOutcome (.ok { status_code := 500, text := "Internal Server Error", body_json := .error "boom" }) = Outcome.AGENT_ERROR ∧
    run_orchestrator wRegistry (.ok wReply)
        (.ok { status_code := 500, text := "Internal Server Error", body_json := .error "boom" })
        "find facts" =
      .ok ("Error from " ++ wDetails.name ++ ": " ++ "Internal Server Error",
           [{ endpoint := wDetails.endpoint, body_query := "find facts", timeout_seconds := 10 }]) ∧
    containsSubstring ("Error from " ++ wDetails.name ++ ": " ++ "Internal Server Error") wDetails.name ∧
    containsSubstring ("Error from " ++ wDetails.name ++ ": " ++ "Internal Server Error") "Internal Server Error" :=
  non200_is_agent_error wRegistry wReply "find facts" "research_agent" wDetails
    { status_code := 500, text := "Internal Server Error", body_json := .error "boom" }
    (by decide) (by decide) (by decide) (by decide)

/-- Witness for C6 at a concrete transport failure. -/
theorem transport_failure_recovered_witness :
    dispatchOutcome (.error "Connection refused") = Outcome.TRANSPORT_ERROR ∧
    run_orchestrator wRegistry (.ok wReply) (.error "Connection refused") "find facts" =
      .ok ("Failed to communicate with " ++ wDetails.name ++ ": " ++ "Connection refused",
           [{ endpoint := wDetails.endpoint, body_query := "find facts", timeout_seconds := 10 }]) ∧
    (HttpRequest.mk wDetails.endpoint "find facts" 10).timeout_seconds = 10 ∧
    containsSubstring ("Failed to communicate with " ++ wDetails.name ++ ": " ++ "Connection refused") wDetails.name ∧
    containsSubstring ("Failed to communicate with " ++ wDetails.name ++ ": " ++ "Connection refused") "Connection refused" :=
  transport_failure_recovered wRegistry wReply "find facts" "research_agent" "Connection refused"
    wDetails (by decide) (by decide) (by decide)

/-- Witness for the amended C7 at a concrete undecodable 200 body. -/
theorem malformed_body_transport_path_witness :
    dispatchOutcome (.ok cxMalformed) = Outcome.TRANSPORT_ERROR ∧
    run_orchestrator cxRegistry (.ok "AGENT_NAME: research_agent") (.ok cxMalformed) "find x" =
      .ok ("Failed to communicate with " ++ "Research Agent" ++ ": " ++ "Expecting value: line 1 column 1 (char 0)",
           [{ endpoint := "http://localhost:8001/query", body_query := "find x", timeout_seconds := 10 }]) :=
  malformed_body_transport_path cxRegistry "AGENT_NAME: research_agent" "find x" "research_agent"
    "Expecting value: line 1 column 1 (char 0)"
    { name := "Research Agent", description := "Handles research queries",
      endpoint := "http://localhost:8001/query", capabilities := ["research"] }
    cxMalformed (by decide) (by decide) (by decide) (by rfl) (by rfl)

/-- Witness for C8 at a concrete oracle failure. -/
theorem oracle_failure_propagates_witness :
    route_query wRegistry (initialState "find facts") (.error "oracle down") = .error "oracle down" ∧
    run_orchestrator wRegistry (.error "oracle down") (.error "unused") "find facts" = .error "oracle down" ∧
    process_query wRegistry (.error "oracle down") (.error "unused") "find facts" =
      .httpError 500 ("Error processing query: " ++ "oracle down") ∧
    (∀ s, process_query wRegistry (.error "oracle down") (.error "unused") "find facts" ≠ ApiResult.success s) :=
  oracle_failure_propagates wRegistry "find facts" "oracle down" (.error "unused")

/-- Witness for C9 at a concrete run that visits both nodes. -/
theorem workflow_monotonic_witness :
    AgentState.next_action { messages := [Message.human "hi"], current_agent := some "research_agent", next_action := .PROCESS, response := none } ≠ NextAction.ROUTE ∧
    (∀ s2 cr2, ((process_with_agent wRegistry s2 cr2).1).next_action = NextAction.END) ∧
    ((["route", "process"] : List String) = ["route"] ∨ (["route", "process"] : List String) = ["route", "process"]) ∧
    AgentState.next_action { messages := [Message.human "hi"], current_agent := some "research_agent", next_action := .END, response := some "x" } = NextAction.END :=
  workflow_monotonic wRegistry (initialState "hi")
    { messages := [Message.human "hi"], current_agent := some "research_agent", next_action := .PROCESS, response := none }
    { messages := [Message.human "hi"], current_agent := some "research_agent", next_action := .END, response := some "x" }
    wReply "hi"
    (.ok { status_code := 200, text := "ok", body_json := .ok [("result", "x")] })
    [{ endpoint := "http://localhost:8001/query", body_query := "hi", timeout_seconds := 10 }]
    ["route", "process"] (by rfl) (by rfl)

/-- Witness for C10 at a concrete 200 body lacking a result field. -/
theorem missing_result_field_is_success_witness :
    dispatchOutcome (.ok { status_code := 200, text := "ok", body_json := .ok [("confidence", "0.5")] }) = Outcome.SUCCESS ∧
    process_with_agent wRegistry
        { messages := [Message.human "q1"], current_agent := some "research_agent", next_action := .PROCESS, response := none }
        (.ok { status_code := 200, text := "ok", body_json := .ok [("confidence", "0.5")] }) =
      ({ messages := [Message.human "q1"], current_agent := some "research_agent", next_action := .END, response := some "" },
       [{ endpoint := wDetails.endpoint, body_query := "q1", timeout_seconds := 10 }]) :=
  missing_result_field_is_success wRegistry
    { messages := [Message.human "q1"], current_agent := some "research_agent", next_action := .PROCESS, response := none }
    "research_agent" wDetails (Message.human "q1")
    { status_code := 200, text := "ok", body_json := .ok [("confidence", "0.5")] }
    [("confidence", "0.5")]
    (by rfl) (by decide) (by decide) (by rfl) (by rfl) (by rfl) (by rfl)

end Orchestrator
